import Mathlib

/-!
Verification of the MOS 6502 ABI plugin (`ABISysV_mos`) for LLDB.

The definitions below are a shallow embedding of
`lldb/source/Plugins/ABI/MOS/ABISysV_mos.cpp` and
`lldb/source/Plugins/ABI/MOS/ABISysV_mos.h`.  Machine integers
(`uint32_t`, `lldb::addr_t`) are modelled as `Nat`; none of the code
performs arithmetic that can overflow, so no wrap-around modelling is
needed.  Supporting LLDB types (`RegisterInfo`, `UnwindPlan`,
`Status`, ...) live elsewhere in the repository and are modelled here
from the specification where noted.
-/

namespace MOS

/-- MOS 6502 register numbers, `enum dwarf_regnums` in the source:
matches MAME's gdb_register_map_m6502. -/
def dwarf_a : Nat := 0

/-- X index register number. -/
def dwarf_x : Nat := 1

/-- Y index register number. -/
def dwarf_y : Nat := 2

/-- Processor status (flags) register number. -/
def dwarf_p : Nat := 3

/-- Stack pointer register number (8-bit, implicitly in page 1). -/
def dwarf_sp : Nat := 4

/-- Program counter register number (16-bit). -/
def dwarf_pc : Nat := 5

/-- `LLDB_INVALID_REGNUM` is `UINT32_MAX` in `lldb-defines.h`. -/
def LLDB_INVALID_REGNUM : Nat := 4294967295

/-- `LLDB_REGNUM_GENERIC_PC` from `lldb-defines.h`: the generic
program-counter role id. -/
def LLDB_REGNUM_GENERIC_PC : Nat := 0

/-- `LLDB_REGNUM_GENERIC_SP` from `lldb-defines.h`: the generic
stack-pointer role id. -/
def LLDB_REGNUM_GENERIC_SP : Nat := 1

/-- `LLDB_REGNUM_GENERIC_FP` from `lldb-defines.h`. -/
def LLDB_REGNUM_GENERIC_FP : Nat := 2

/-- `LLDB_REGNUM_GENERIC_RA` from `lldb-defines.h`. -/
def LLDB_REGNUM_GENERIC_RA : Nat := 3

/-- `LLDB_REGNUM_GENERIC_FLAGS` from `lldb-defines.h`: the generic
flags-register role id. -/
def LLDB_REGNUM_GENERIC_FLAGS : Nat := 4

/-- Register value encodings (only `eEncodingUint` is used here). -/
inductive Encoding where
  | eEncodingUint
deriving DecidableEq, Repr

/-- Register display formats (only `eFormatHex` is used here). -/
inductive Format where
  | eFormatHex
deriving DecidableEq, Repr

/-- The five register numbering schemes of the `kinds` array of an
LLDB `RegisterInfo`, in their array order: EH-frame, DWARF, generic
role, process plugin, LLDB internal. -/
structure RegisterKinds where
  ehframe : Nat
  dwarf : Nat
  generic : Nat
  process_plugin : Nat
  lldb_internal : Nat
deriving DecidableEq, Repr

/-- Modelled from the spec: a RegisterDescriptor (LLDB `RegisterInfo`,
declared in `lldb/lldb-private-types.h`, which is not under `src/`):
primary name, optional alternate name, byte size, byte offset,
encoding, display format, the numbering-scheme array, and the three
trailing pointer fields of the C struct (all null in this table). -/
structure RegisterInfo where
  name : String
  alt_name : Option String
  byte_size : Nat
  byte_offset : Nat
  encoding : Encoding
  format : Format
  kinds : RegisterKinds
  value_regs : Option (List Nat)
  invalidate_regs : Option (List Nat)
  flags_detail : Option (List Nat)
deriving DecidableEq, Repr

/-- The static register table `g_register_infos` of the source.
Order: A, X, Y, P, SP, PC (matches MAME format). -/
def g_register_infos : List RegisterInfo :=
  [{ name := "a", alt_name := none, byte_size := 1, byte_offset := 0,
     encoding := .eEncodingUint, format := .eFormatHex,
     kinds := { ehframe := dwarf_a, dwarf := dwarf_a,
                generic := LLDB_INVALID_REGNUM,
                process_plugin := LLDB_INVALID_REGNUM,
                lldb_internal := LLDB_INVALID_REGNUM },
     value_regs := none, invalidate_regs := none, flags_detail := none },
   { name := "x", alt_name := none, byte_size := 1, byte_offset := 0,
     encoding := .eEncodingUint, format := .eFormatHex,
     kinds := { ehframe := dwarf_x, dwarf := dwarf_x,
                generic := LLDB_INVALID_REGNUM,
                process_plugin := LLDB_INVALID_REGNUM,
                lldb_internal := LLDB_INVALID_REGNUM },
     value_regs := none, invalidate_regs := none, flags_detail := none },
   { name := "y", alt_name := none, byte_size := 1, byte_offset := 0,
     encoding := .eEncodingUint, format := .eFormatHex,
     kinds := { ehframe := dwarf_y, dwarf := dwarf_y,
                generic := LLDB_INVALID_REGNUM,
                process_plugin := LLDB_INVALID_REGNUM,
                lldb_internal := LLDB_INVALID_REGNUM },
     value_regs := none, invalidate_regs := none, flags_detail := none },
   { name := "p", alt_name := some "flags", byte_size := 1, byte_offset := 0,
     encoding := .eEncodingUint, format := .eFormatHex,
     kinds := { ehframe := dwarf_p, dwarf := dwarf_p,
                generic := LLDB_REGNUM_GENERIC_FLAGS,
                process_plugin := LLDB_INVALID_REGNUM,
                lldb_internal := LLDB_INVALID_REGNUM },
     value_regs := none, invalidate_regs := none, flags_detail := none },
   { name := "sp", alt_name := none, byte_size := 1, byte_offset := 0,
     encoding := .eEncodingUint, format := .eFormatHex,
     kinds := { ehframe := dwarf_sp, dwarf := dwarf_sp,
                generic := LLDB_REGNUM_GENERIC_SP,
                process_plugin := LLDB_INVALID_REGNUM,
                lldb_internal := LLDB_INVALID_REGNUM },
     value_regs := none, invalidate_regs := none, flags_detail := none },
   { name := "pc", alt_name := none, byte_size := 2, byte_offset := 0,
     encoding := .eEncodingUint, format := .eFormatHex,
     kinds := { ehframe := dwarf_pc, dwarf := dwarf_pc,
                generic := LLDB_REGNUM_GENERIC_PC,
                process_plugin := LLDB_INVALID_REGNUM,
                lldb_internal := LLDB_INVALID_REGNUM },
     value_regs := none, invalidate_regs := none, flags_detail := none }]

/-- `k_num_register_infos = sizeof(g_register_infos) / sizeof(RegisterInfo)`. -/
def k_num_register_infos : Nat := g_register_infos.length

/-- Modelled from the spec: LLDB's tri-state `LazyBool`
(`lldb-enumerations.h`, not under `src/`). -/
inductive LazyBool where
  | eLazyBoolCalculate
  | eLazyBoolNo
  | eLazyBoolYes
deriving DecidableEq, Repr

/-- The register numbering scheme an unwind plan's register numbers
refer to; the source only uses `eRegisterKindDWARF`. -/
inductive RegisterKindScheme where
  | eRegisterKindEHFrame
  | eRegisterKindDWARF
  | eRegisterKindGeneric
  | eRegisterKindProcessPlugin
  | eRegisterKindLLDB
deriving DecidableEq, Repr

/-- Modelled from the spec: the CFA rule of an UnwindRow, expressed as
"base register + constant offset" (`UnwindPlan::Row::FAValue`,
`lldb/Symbol/UnwindPlan.h`, not under `src/`). -/
inductive CFARule where
  | unspecified
  | registerPlusOffset (reg : Nat) (offset : Int)
deriving DecidableEq, Repr

/-- Modelled from the spec: a per-register recovery rule of an
UnwindRow — either "located at CFA plus signed offset, value read from
memory" or "value equals CFA plus signed offset, computed directly" —
each carrying a boolean "rule is definite" flag
(`lldb/Symbol/UnwindPlan.h`, not under `src/`). -/
inductive RegisterRecoveryRule where
  | atCFAPlusOffset (offset : Int) (definite : Bool)
  | isCFAPlusOffset (offset : Int) (definite : Bool)
deriving DecidableEq, Repr

/-- Modelled from the spec: one UnwindRow — a CFA rule plus recovery
rules keyed by register number (`UnwindPlan::Row`,
`lldb/Symbol/UnwindPlan.h`, not under `src/`). -/
structure UnwindRow where
  cfa : CFARule
  reg_rules : List (Nat × RegisterRecoveryRule)
deriving DecidableEq, Repr

/-- A default-constructed `UnwindPlan::Row`: no CFA rule, no register
rules. -/
def UnwindRow.init : UnwindRow :=
  { cfa := .unspecified, reg_rules := [] }

/-- `row.GetCFAValue().SetIsRegisterPlusOffset(reg, offset)`. -/
def UnwindRow.setCFAIsRegisterPlusOffset (row : UnwindRow) (reg : Nat)
    (offset : Int) : UnwindRow :=
  { row with cfa := .registerPlusOffset reg offset }

/-- `row.SetRegisterLocationToAtCFAPlusOffset(reg, offset, definite)`:
record that register `reg` is recovered by reading memory at CFA plus
`offset`. -/
def UnwindRow.setRegisterLocationToAtCFAPlusOffset (row : UnwindRow)
    (reg : Nat) (offset : Int) (definite : Bool) : UnwindRow :=
  { row with reg_rules := row.reg_rules ++ [(reg, .atCFAPlusOffset offset definite)] }

/-- `row.SetRegisterLocationToIsCFAPlusOffset(reg, offset, definite)`:
record that register `reg` has the value CFA plus `offset`. -/
def UnwindRow.setRegisterLocationToIsCFAPlusOffset (row : UnwindRow)
    (reg : Nat) (offset : Int) (definite : Bool) : UnwindRow :=
  { row with reg_rules := row.reg_rules ++ [(reg, .isCFAPlusOffset offset definite)] }

/-- Modelled from the spec: an UnwindPlan — an ordered sequence of
rows, a provenance label, the sourced-from-compiler flag and the
valid-at-all-instructions flag (`lldb/Symbol/UnwindPlan.h`, not under
`src/`). -/
structure UnwindPlan where
  register_kind : RegisterKindScheme
  rows : List UnwindRow
  source_name : String
  sourced_from_compiler : LazyBool
  valid_at_all_instructions : LazyBool
deriving DecidableEq, Repr

/-- `UnwindPlan(kind)` constructor: empty plan, no name, both lazy
flags at their `eLazyBoolCalculate` default. -/
def UnwindPlan.init (kind : RegisterKindScheme) : UnwindPlan :=
  { register_kind := kind, rows := [], source_name := "",
    sourced_from_compiler := .eLazyBoolCalculate,
    valid_at_all_instructions := .eLazyBoolCalculate }

/-- `plan_sp->AppendRow(row)`. -/
def UnwindPlan.appendRow (p : UnwindPlan) (row : UnwindRow) : UnwindPlan :=
  { p with rows := p.rows ++ [row] }

/-- `plan_sp->SetSourceName(name)`. -/
def UnwindPlan.setSourceName (p : UnwindPlan) (name : String) : UnwindPlan :=
  { p with source_name := name }

/-- `plan_sp->SetSourcedFromCompiler(b)`. -/
def UnwindPlan.setSourcedFromCompiler (p : UnwindPlan) (b : LazyBool) : UnwindPlan :=
  { p with sourced_from_compiler := b }

/-- `plan_sp->SetUnwindPlanValidAtAllInstructions(b)`. -/
def UnwindPlan.setValidAtAllInstructions (p : UnwindPlan) (b : LazyBool) : UnwindPlan :=
  { p with valid_at_all_instructions := b }

end MOS

namespace ABISysV_mos

open MOS

/-- `ABISysV_mos::GetRegisterInfoArray(uint32_t &count)`: writes the
table size into `count` and returns the table; modelled as the pair
(count written, table returned). -/
def GetRegisterInfoArray : Nat × List RegisterInfo :=
  (k_num_register_infos, g_register_infos)

/-- `ABISysV_mos::GetRedZoneSize() const { return 0; }` -/
def GetRedZoneSize : Nat := 0

/-- `ABISysV_mos::GetStackFrameSize() override { return 256; }` (header). -/
def GetStackFrameSize : Nat := 256

/-- `ABISysV_mos::CodeAddressIsValid(lldb::addr_t pc)` (header):
6502 has 16-bit address space, so `return pc <= 0xFFFF;`. -/
def CodeAddressIsValid (pc : Nat) : Bool :=
  pc ≤ 0xFFFF

/-- `ABISysV_mos::CallFrameAddressIsValid(lldb::addr_t cfa)` (header):
`return cfa != 0;`. -/
def CallFrameAddressIsValid (cfa : Nat) : Bool :=
  cfa ≠ 0

/-- `ABISysV_mos::RegisterIsCalleeSaved`: on 6502, no registers are
automatically callee-saved; `return false;`. -/
def RegisterIsCalleeSaved (_reg_info : RegisterInfo) : Bool :=
  false

/-- `ABISysV_mos::RegisterIsVolatile`:
`return !RegisterIsCalleeSaved(reg_info);`. -/
def RegisterIsVolatile (reg_info : RegisterInfo) : Bool :=
  !RegisterIsCalleeSaved reg_info

/-- `ABISysV_mos::CreateFunctionEntryUnwindPlan()`: called on the
first instruction of a new function; the return address was pushed to
the stack by JSR.  CFA is SP + 2 (after JSR pushes the 2-byte return
address). -/
def CreateFunctionEntryUnwindPlan : UnwindPlan :=
  let sp_reg_num := dwarf_sp
  let pc_reg_num := dwarf_pc
  let row := UnwindRow.init
  let row := row.setCFAIsRegisterPlusOffset sp_reg_num 2
  let row := row.setRegisterLocationToAtCFAPlusOffset pc_reg_num (-2) true
  let row := row.setRegisterLocationToIsCFAPlusOffset sp_reg_num 0 true
  let plan := UnwindPlan.init .eRegisterKindDWARF
  let plan := plan.appendRow row
  let plan := plan.setSourceName "mos 6502 at-func-entry default"
  let plan := plan.setSourcedFromCompiler .eLazyBoolNo
  plan

/-- `ABISysV_mos::CreateDefaultUnwindPlan()`. -/
def CreateDefaultUnwindPlan : UnwindPlan :=
  let sp_reg_num := dwarf_sp
  let pc_reg_num := dwarf_pc
  let row := UnwindRow.init
  let row := row.setCFAIsRegisterPlusOffset sp_reg_num 2
  let row := row.setRegisterLocationToAtCFAPlusOffset pc_reg_num (-2) true
  let row := row.setRegisterLocationToIsCFAPlusOffset sp_reg_num 0 true
  let plan := UnwindPlan.init .eRegisterKindDWARF
  let plan := plan.appendRow row
  let plan := plan.setSourceName "mos 6502 default unwind plan"
  let plan := plan.setSourcedFromCompiler .eLazyBoolNo
  let plan := plan.setValidAtAllInstructions .eLazyBoolNo
  plan

end ABISysV_mos

namespace MOS

/-- Modelled from the spec: a thread context as observed by this ABI
plugin — register contents and memory of the debugged process
(`lldb_private::Thread`, not under `src/`).  The stubbed operations
below must not mutate it. -/
structure Thread where
  registers : Nat → Nat
  memory : Nat → Nat

/-- Modelled from the spec: an entry of a `ValueList`
(`lldb_private::Value`, not under `src/`), carried opaquely. -/
structure Value where
  bytes : List Nat
deriving DecidableEq, Repr

/-- `lldb_private::ValueList`: an ordered list of values. -/
abbrev ValueList : Type := List Value

/-- Modelled from the spec: a stack frame handle
(`lldb::StackFrameSP`, not under `src/`), carried opaquely. -/
structure StackFrame where
  frame_id : Nat
deriving DecidableEq, Repr

/-- Modelled from the spec: `lldb_private::Status` (not under `src/`):
a default-constructed `Status()` carries error value 0, meaning
success. -/
structure Status where
  error_value : Nat
deriving DecidableEq, Repr

/-- A `Status` reports success iff its error value is zero. -/
def Status.success (s : Status) : Bool :=
  s.error_value == 0

/-- Modelled from the spec: a value object handle
(`lldb::ValueObjectSP`, not under `src/`); a default-constructed
shared pointer is absent, modelled by `Option`. -/
structure ValueObject where
  payload : List Nat
deriving DecidableEq, Repr

/-- Modelled from the spec: a compiler type request
(`lldb_private::CompilerType`, not under `src/`), carried opaquely. -/
structure CompilerType where
  type_id : Nat
deriving DecidableEq, Repr

end MOS

namespace ABISysV_mos

open MOS

/-- `ABISysV_mos::PrepareTrivialCall(thread, sp, pc, ra, args)`:
the 6502 does not support traditional function calls via the
debugger; the body is `return false;` with no mutation, so the
state-passing embedding returns the thread unchanged. -/
def PrepareTrivialCall (thread : Thread) (_sp _functionAddress
    _returnAddress : Nat) (_args : List Nat) : Bool × Thread :=
  (false, thread)

/-- `ABISysV_mos::GetArgumentValues(thread, values)`: the body is
`return false;` with no write to `values`, so the state-passing
embedding returns the value list unchanged. -/
def GetArgumentValues (_thread : Thread) (values : ValueList) :
    Bool × ValueList :=
  (false, values)

/-- `ABISysV_mos::SetReturnValueObject(frame_sp, new_value_sp)`:
`return Status();` with no write to either argument; the embedding
returns the fresh `Status` together with both arguments unchanged. -/
def SetReturnValueObject (frame_sp : StackFrame)
    (new_value_sp : Option ValueObject) :
    Status × StackFrame × Option ValueObject :=
  ({ error_value := 0 }, frame_sp, new_value_sp)

/-- `ABISysV_mos::GetReturnValueObjectSimple(thread, type)`: returns a
default-constructed (absent) `ValueObjectSP`. -/
def GetReturnValueObjectSimple (_thread : Thread)
    (_return_compiler_type : CompilerType) : Option ValueObject :=
  none

/-- `ABISysV_mos::GetReturnValueObjectImpl(thread, type)`: returns a
default-constructed (absent) `ValueObjectSP`. -/
def GetReturnValueObjectImpl (_thread : Thread)
    (_return_compiler_type : CompilerType) : Option ValueObject :=
  none

end ABISysV_mos

namespace MOS

/-- Follows the spec's words (for the refinement claim): the DWARF id
of the first catalog entry carrying the given generic role, if any. -/
def specDwarfNumForRole (catalog : List RegisterInfo) (role : Nat) : Option Nat :=
  (catalog.find? (fun r => r.kinds.generic == role)).map (fun r => r.kinds.dwarf)

/-- Follows the spec's words (for the refinement claim): synthesize an
unwind plan purely from the two generic register roles of the catalog —
look the stack-pointer and program-counter numbers up by role instead
of hardcoding them, then build the single fixed-template row.  `none`
if either role is missing from the catalog. -/
def specRoleDerivedPlan (catalog : List RegisterInfo) (label : String)
    (mark_not_valid_at_all_instructions : Bool) : Option UnwindPlan :=
  match specDwarfNumForRole catalog LLDB_REGNUM_GENERIC_SP,
        specDwarfNumForRole catalog LLDB_REGNUM_GENERIC_PC with
  | some sp_reg_num, some pc_reg_num =>
    let row := UnwindRow.init
    let row := row.setCFAIsRegisterPlusOffset sp_reg_num 2
    let row := row.setRegisterLocationToAtCFAPlusOffset pc_reg_num (-2) true
    let row := row.setRegisterLocationToIsCFAPlusOffset sp_reg_num 0 true
    let plan := UnwindPlan.init .eRegisterKindDWARF
    let plan := plan.appendRow row
    let plan := plan.setSourceName label
    let plan := plan.setSourcedFromCompiler .eLazyBoolNo
    let plan := if mark_not_valid_at_all_instructions then
        plan.setValidAtAllInstructions .eLazyBoolNo
      else plan
    some plan
  | _, _ => none

end MOS

open MOS

/-- Claim C1: both unwind-plan operations produce a plan with exactly
one row, identical between the two plans: CFA = stack-pointer register
plus 2; the program counter is recovered from memory at CFA minus 2
(definite) and the register read there is 2 bytes wide per the
catalog; the stack pointer equals CFA plus 0 (definite); both plans
are marked not sourced from compiler metadata; the default plan's
valid-at-all-instructions flag is `eLazyBoolNo` and the two provenance
labels differ. -/
theorem unwind_plans_single_identical_row :
    ABISysV_mos.CreateFunctionEntryUnwindPlan.rows =
      [{ cfa := CFARule.registerPlusOffset dwarf_sp 2,
         reg_rules := [(dwarf_pc, RegisterRecoveryRule.atCFAPlusOffset (-2) true),
                       (dwarf_sp, RegisterRecoveryRule.isCFAPlusOffset 0 true)] }] ∧
    ABISysV_mos.CreateDefaultUnwindPlan.rows =
      ABISysV_mos.CreateFunctionEntryUnwindPlan.rows ∧
    (g_register_infos.find? (fun r => r.kinds.dwarf == dwarf_pc)).map
      (fun r => r.byte_size) = some 2 ∧
    ABISysV_mos.CreateFunctionEntryUnwindPlan.sourced_from_compiler =
      LazyBool.eLazyBoolNo ∧
    ABISysV_mos.CreateDefaultUnwindPlan.sourced_from_compiler =
      LazyBool.eLazyBoolNo ∧
    ABISysV_mos.CreateDefaultUnwindPlan.valid_at_all_instructions =
      LazyBool.eLazyBoolNo ∧
    ABISysV_mos.CreateFunctionEntryUnwindPlan.source_name ≠
      ABISysV_mos.CreateDefaultUnwindPlan.source_name := by
  refine ⟨rfl, rfl, rfl, rfl, rfl, rfl, ?_⟩
  decide

/-- Claim C2: the register table has exactly 6 entries in the fixed
order a, x, y, p, sp, pc; exactly one entry carries each of the
generic ProgramCounter, StackPointer and Flags roles; the program
counter has byte size 2 and every other register byte size 1. -/
theorem register_catalog_shape :
    ABISysV_mos.GetRegisterInfoArray.1 = 6 ∧
    ABISysV_mos.GetRegisterInfoArray.2 = g_register_infos ∧
    g_register_infos.map (fun r => r.name) = ["a", "x", "y", "p", "sp", "pc"] ∧
    g_register_infos.countP
      (fun r => r.kinds.generic == LLDB_REGNUM_GENERIC_PC) = 1 ∧
    g_register_infos.countP
      (fun r => r.kinds.generic == LLDB_REGNUM_GENERIC_SP) = 1 ∧
    g_register_infos.countP
      (fun r => r.kinds.generic == LLDB_REGNUM_GENERIC_FLAGS) = 1 ∧
    g_register_infos.map (fun r => r.byte_size) = [1, 1, 1, 1, 1, 2] := by
  refine ⟨rfl, rfl, ?_, ?_, ?_, ?_, ?_⟩ <;> decide

/-- Claim C3: the stack-pointer and program-counter numbers used by
both unwind plans coincide with the DWARF ids of the unique catalog
entries carrying the generic StackPointer and ProgramCounter roles,
and each plan equals the plan re-derived purely from those roles by
catalog lookup. -/
theorem unwind_plans_derivable_from_roles :
    g_register_infos.countP
      (fun r => r.kinds.generic == LLDB_REGNUM_GENERIC_SP) = 1 ∧
    g_register_infos.countP
      (fun r => r.kinds.generic == LLDB_REGNUM_GENERIC_PC) = 1 ∧
    specDwarfNumForRole g_register_infos LLDB_REGNUM_GENERIC_SP =
      some dwarf_sp ∧
    specDwarfNumForRole g_register_infos LLDB_REGNUM_GENERIC_PC =
      some dwarf_pc ∧
    specRoleDerivedPlan g_register_infos "mos 6502 at-func-entry default" false =
      some ABISysV_mos.CreateFunctionEntryUnwindPlan ∧
    specRoleDerivedPlan g_register_infos "mos 6502 default unwind plan" true =
      some ABISysV_mos.CreateDefaultUnwindPlan := by
  refine ⟨?_, ?_, rfl, rfl, rfl, rfl⟩ <;> decide

/-- Claim C4: `CodeAddressIsValid a` is true iff `a ≤ 0xFFFF`, and in
particular it accepts 0x0000 and 0xFFFF and rejects 0x10000. -/
theorem code_address_valid_iff :
    (∀ a : Nat, ABISysV_mos.CodeAddressIsValid a = true ↔ a ≤ 0xFFFF) ∧
    ABISysV_mos.CodeAddressIsValid 0x0000 = true ∧
    ABISysV_mos.CodeAddressIsValid 0xFFFF = true ∧
    ABISysV_mos.CodeAddressIsValid 0x10000 = false := by
  refine ⟨fun a => ?_, by decide, by decide, by decide⟩
  simp [ABISysV_mos.CodeAddressIsValid]

/-- Claim C5: `CallFrameAddressIsValid a` is true iff `a ≠ 0`; it
rejects only 0 and accepts any nonzero value, including 0x200 which
lies outside the hardware stack page. -/
theorem frame_address_valid_iff :
    (∀ a : Nat, ABISysV_mos.CallFrameAddressIsValid a = true ↔ a ≠ 0) ∧
    ABISysV_mos.CallFrameAddressIsValid 0 = false ∧
    ABISysV_mos.CallFrameAddressIsValid 1 = true ∧
    ABISysV_mos.CallFrameAddressIsValid 0x200 = true := by
  refine ⟨fun a => ?_, by decide, by decide, by decide⟩
  simp [ABISysV_mos.CallFrameAddressIsValid]

/-- Claim C6: for every register-info input, `RegisterIsVolatile`
returns true and `RegisterIsCalleeSaved` returns false: the
classification is the constant caller-saved policy. -/
theorem every_register_volatile (r : RegisterInfo) :
    ABISysV_mos.RegisterIsVolatile r = true ∧
    ABISysV_mos.RegisterIsCalleeSaved r = false := by
  exact ⟨rfl, rfl⟩

/-- Claim C9: `GetStackFrameSize` always returns 256 and
`GetRedZoneSize` always returns 0. -/
theorem stack_frame_and_red_zone_sizes :
    ABISysV_mos.GetStackFrameSize = 256 ∧ ABISysV_mos.GetRedZoneSize = 0 :=
  ⟨rfl, rfl⟩

/-- Claim C10: every descriptor in the static register table has byte
offset 0, so no two registers are distinguishable by offset. -/
theorem register_offsets_all_zero :
    g_register_infos.map (fun r => r.byte_offset) = [0, 0, 0, 0, 0, 0] ∧
    g_register_infos.all (fun r => r.byte_offset == 0) = true := by
  refine ⟨?_, ?_⟩ <;> decide

/-- Claim C7 counterexample: with a nonempty output value list on
entry, `GetArgumentValues` leaves it nonempty on return, so "the value
list is left unmodified and is empty on return" fails for that input. -/
theorem get_argument_values_nonempty_stays :
    (ABISysV_mos.GetArgumentValues
        { registers := fun _ => 0, memory := fun _ => 0 }
        [{ bytes := [7] }]).2 ≠ ([] : ValueList) := by
  simp [ABISysV_mos.GetArgumentValues]

/-- Claim C7 (amended): for every thread context and every output
value list, `GetArgumentValues` returns failure and leaves the value
list unmodified; in particular an empty list stays empty. -/
theorem get_argument_values_fails_unmodified (thread : Thread)
    (values : ValueList) :
    ABISysV_mos.GetArgumentValues thread values = (false, values) :=
  rfl

/-- Claim C8: `PrepareTrivialCall` always fails and returns the thread
state (registers and memory) unchanged; `SetReturnValueObject` returns
a success status and leaves its arguments unchanged;
`GetReturnValueObjectImpl` returns an absent value object for every
requested type. -/
theorem calling_convention_stubs (thread : Thread) (sp fa ra : Nat)
    (args : List Nat) (frame : StackFrame) (vobj : Option ValueObject)
    (ty : CompilerType) :
    ABISysV_mos.PrepareTrivialCall thread sp fa ra args = (false, thread) ∧
    ABISysV_mos.SetReturnValueObject frame vobj =
      ({ error_value := 0 }, frame, vobj) ∧
    (ABISysV_mos.SetReturnValueObject frame vobj).1.success = true ∧
    ABISysV_mos.GetReturnValueObjectImpl thread ty = none :=
  ⟨rfl, rfl, rfl, rfl⟩

/-- Witness: the volatility classification evaluated at the first
catalog descriptor, the accumulator. -/
theorem every_register_volatile_witness :
    ABISysV_mos.RegisterIsVolatile (g_register_infos.get ⟨0, by decide⟩) = true ∧
    ABISysV_mos.RegisterIsCalleeSaved (g_register_infos.get ⟨0, by decide⟩) = false :=
  every_register_volatile (g_register_infos.get ⟨0, by decide⟩)

/-- Witness: `GetArgumentValues` on a concrete thread and the empty
value list fails and returns the empty list. -/
theorem get_argument_values_fails_unmodified_witness :
    ABISysV_mos.GetArgumentValues
      { registers := fun _ => 0, memory := fun _ => 0 }
      ([] : ValueList) = (false, ([] : ValueList)) :=
  get_argument_values_fails_unmodified
    { registers := fun _ => 0, memory := fun _ => 0 } ([] : ValueList)

/-- Witness: the calling-convention stubs evaluated at concrete
inputs. -/
theorem calling_convention_stubs_witness :
    ABISysV_mos.PrepareTrivialCall
      { registers := fun _ => 0, memory := fun _ => 0 } 0 0 0 [] =
      (false, { registers := fun _ => 0, memory := fun _ => 0 }) ∧
    ABISysV_mos.SetReturnValueObject { frame_id := 0 } none =
      ({ error_value := 0 }, { frame_id := 0 }, none) ∧
    (ABISysV_mos.SetReturnValueObject { frame_id := 0 } none).1.success = true ∧
    ABISysV_mos.GetReturnValueObjectImpl
      { registers := fun _ => 0, memory := fun _ => 0 } { type_id := 0 } = none :=
  calling_convention_stubs
    { registers := fun _ => 0, memory := fun _ => 0 } 0 0 0 []
    { frame_id := 0 } none { type_id := 0 }
